import Mathlib

/-!
Shallow embedding of the token-swap program
(`src/programs/token-swap/src/lib.rs` and `error.rs`).

Machine integers are modelled as `Nat` with explicit 64-bit bounds: Rust's
`u64::checked_*` operations become `Option Nat` valued functions that return
`none` exactly when the Rust operation would, and the `as u64` narrowing of a
`u128` value is an explicit `% 2^64`.

Each Anchor instruction handler becomes a function from its inputs (the pool
account's data, the relevant token-account fields, and the instruction
arguments) to a `Run`: the in-memory pool state at the point the handler
returns, the list of external token-ledger calls that were successfully issued
(transfer / mint / burn CPIs), and an outcome.  On `Err`, `Run.pool` is the
pool struct as mutated so far by the sequential Rust body (the handler mutates
through `&mut` before returning); the Anchor/Solana host persists account data
only when the instruction succeeds, which `persistedPool` expresses.

External CPI calls (transfers, mints, burns) are out-of-scope collaborators;
their success or failure is an input to each handler (one `Bool` per call, in
program order).  A failed CPI issues no effect and — where the source
propagates the error with `?` — aborts the handler with `Outcome.cpiFail`.
Account-validation constraints from the `#[derive(Accounts)]` structs
(ownership and signature checks) are host-side wiring, out of scope per the
specification; the handlers are modelled on arbitrary account field values.
-/

namespace TokenSwap

/-- Account identifiers (Solana `Pubkey`), abstracted to naturals. -/
abbrev Pubkey := Nat

/-- Largest value of a Rust `u64`. -/
def U64MAX : Nat := 2 ^ 64 - 1

/-- Largest value of a Rust `u128`. -/
def U128MAX : Nat := 2 ^ 128 - 1

/-- Rust `u64::checked_add`. -/
def chkAdd (a b : Nat) : Option Nat :=
  if a + b ≤ U64MAX then some (a + b) else none

/-- Rust `u64::checked_mul`. -/
def chkMul (a b : Nat) : Option Nat :=
  if a * b ≤ U64MAX then some (a * b) else none

/-- Rust `u64::checked_sub`. -/
def chkSub (a b : Nat) : Option Nat :=
  if b ≤ a then some (a - b) else none

/-- Rust `u64::checked_div` (and `u128::checked_div`: same failure condition). -/
def chkDiv (a b : Nat) : Option Nat :=
  if b = 0 then none else some (a / b)

/-- Rust `u128::checked_mul` on values that were widened with `as u128`. -/
def chkMul128 (a b : Nat) : Option Nat :=
  if a * b ≤ U128MAX then some (a * b) else none

/-- Rust `as u64` narrowing of a `u128` value: silent truncation mod `2^64`. -/
def toU64 (x : Nat) : Nat := x % 2 ^ 64

/-- The error enum of `error.rs` (`CustomError`).  `CalculationFailure` is
referenced by `calculate_swap_result` in `lib.rs` and is included here as the
read-only-path arithmetic failure kind the spec describes. -/
inductive CustomError
  | InvalidToken
  | InvalidAmount
  | InsufficientFunds
  | InvalidSwapPool
  | UnauthorizedAccess
  | SlippageExceeded
  | FeeTooHigh
  | PoolPaused
  | InsufficientLiquidity
  | Unauthorized
  | CalculationFailure
deriving DecidableEq, Repr

/-- How a handler invocation ends: success, a `CustomError` returned with
`require!`/`ok_or`, a Rust panic (`Option::unwrap` on `None`), or a
propagated failure of an external CPI call. -/
inductive Outcome
  | ok
  | err (e : CustomError)
  | panicked
  | cpiFail
deriving DecidableEq, Repr

/-- A successfully issued external token-ledger call.  The `mint`/`decimals`
arguments of `transfer_checked` do not affect amounts and are omitted. -/
inductive Effect
  | transfer (src dst : Pubkey) (amount : Nat)
  | mintTo (dst : Pubkey) (amount : Nat)
  | burn (src : Pubkey) (amount : Nat)
deriving DecidableEq, Repr

/-- The `SwapPool` account (`lib.rs:657-672`). -/
structure SwapPool where
  token_a_mint : Pubkey
  token_b_mint : Pubkey
  token_a_vault : Pubkey
  token_b_vault : Pubkey
  lp_mint : Pubkey
  pool_authority : Pubkey
  fee_rate : Nat
  bump : Nat
  is_paused : Bool
  admin : Pubkey
  total_fees_a : Nat
  total_fees_b : Nat
deriving DecidableEq, Repr

/-- The fields of an SPL token account a handler reads. -/
structure TokenAccount where
  key : Pubkey
  mint : Pubkey
  amount : Nat
deriving DecidableEq, Repr

/-- Result of running one instruction handler: the in-memory pool at return,
the external calls issued so far, and the outcome. -/
structure Run where
  pool : SwapPool
  effects : List Effect
  outcome : Outcome
deriving DecidableEq, Repr

/-- The pool data the host actually persists: Anchor writes the account back
only when the handler returns `Ok`; on any failure the transaction is
discarded and the pre-state remains. -/
def persistedPool (pre : SwapPool) (r : Run) : SwapPool :=
  if r.outcome = .ok then r.pool else pre

/-- Two pool records agree on every field except (possibly) the two
accumulated fee counters. -/
def sameConfig (q r : SwapPool) : Prop :=
  q.token_a_mint = r.token_a_mint ∧ q.token_b_mint = r.token_b_mint ∧
  q.token_a_vault = r.token_a_vault ∧ q.token_b_vault = r.token_b_vault ∧
  q.lp_mint = r.lp_mint ∧ q.pool_authority = r.pool_authority ∧
  q.fee_rate = r.fee_rate ∧ q.bump = r.bump ∧ q.is_paused = r.is_paused ∧
  q.admin = r.admin

/-! ### initialize_pool (lib.rs:16-51) -/

/-- Accounts supplied to `initialize_pool`. -/
structure InitializePoolCtx where
  token_a_mint : Pubkey
  token_b_mint : Pubkey
  token_a_vault : Pubkey
  token_b_vault : Pubkey
  lp_mint : Pubkey
  pool_authority : Pubkey
  admin : Pubkey
deriving DecidableEq, Repr

/-- A freshly `init`-allocated account is zero-filled; fields the handler
does not assign keep this value. -/
def freshPool : SwapPool :=
  { token_a_mint := 0, token_b_mint := 0, token_a_vault := 0, token_b_vault := 0
    lp_mint := 0, pool_authority := 0, fee_rate := 0, bump := 0
    is_paused := false, admin := 0, total_fees_a := 0, total_fees_b := 0 }

/-- `initialize_pool` (lib.rs:16-51).  The handler assigns `token_a_mint`,
`token_b_mint`, `token_b_vault`, `lp_mint`, `pool_authority`, `fee_rate`,
`bump`, `is_paused`, `admin` and the two fee counters; it never assigns
`swap_pool.token_a_vault` (there is no such line in the source), so that
field keeps its zero-initialized value. -/
def initializePool (ctx : InitializePoolCtx) (fee_rate bump : Nat) :
    Except CustomError SwapPool :=
  if 1000 < fee_rate then .error .FeeTooHigh
  else .ok { freshPool with
    token_a_mint := ctx.token_a_mint
    token_b_mint := ctx.token_b_mint
    token_b_vault := ctx.token_b_vault
    lp_mint := ctx.lp_mint
    pool_authority := ctx.pool_authority
    fee_rate := fee_rate
    bump := bump
    is_paused := false
    admin := ctx.admin
    total_fees_a := 0
    total_fees_b := 0 }

/-! ### swap (lib.rs:332-414) -/

/-- Accounts supplied to `swap`. -/
structure SwapCtx where
  user_token_a : TokenAccount
  user_token_b : TokenAccount
  token_a_vault : TokenAccount
  token_b_vault : TokenAccount
deriving DecidableEq, Repr

/-- Direction resolution (lib.rs:348-355): `some true` selects a→b with
`user_token_a` as the source account, `some false` selects b→a with
`user_token_b` as the source account, `none` is the `InvalidToken` case. -/
def swapDispatch (pool : SwapPool) (ctx : SwapCtx) : Option Bool :=
  if ctx.user_token_a.mint = pool.token_a_mint then some true
  else if ctx.user_token_b.mint = pool.token_b_mint then some false
  else none

/-- The pricing block of `swap` (lib.rs:357-370): checked u64 arithmetic, each
failure mapped to `InvalidAmount` with `ok_or`.  Returns
`(fee_amount, final_amount_to_redeem)`. -/
def swapQuote (ir orr fee_rate amount_in : Nat) :
    Except CustomError (Nat × Nat) :=
  match chkAdd ir amount_in with
  | none => .error .InvalidAmount
  | some newIr =>
    match chkMul ir orr with
    | none => .error .InvalidAmount
    | some prod =>
      match chkDiv prod newIr with
      | none => .error .InvalidAmount
      | some newOrr =>
        match chkSub orr newOrr with
        | none => .error .InvalidAmount
        | some gross =>
          match chkMul gross fee_rate with
          | none => .error .InvalidAmount
          | some feeNum =>
            match chkDiv feeNum 10000 with
            | none => .error .InvalidAmount
            | some fee =>
              match chkSub gross fee with
              | none => .error .InvalidAmount
              | some net => .ok (fee, net)

/-- `swap` (lib.rs:332-414).  `tIn`/`tOut` are the outcomes of the two
external transfer calls.  The fee counter of the output side is credited
before the slippage check, exactly as in the source (lib.rs:372-378). -/
def swap (pool : SwapPool) (ctx : SwapCtx) (amount_in min_amount_out : Nat)
    (tIn tOut : Bool) : Run :=
  if pool.is_paused then ⟨pool, [], .err .PoolPaused⟩
  else if amount_in = 0 then ⟨pool, [], .err .InvalidAmount⟩
  else
    match swapDispatch pool ctx with
    | none => ⟨pool, [], .err .InvalidToken⟩
    | some dir =>
      let inputVault := if dir then ctx.token_a_vault else ctx.token_b_vault
      let redeemVault := if dir then ctx.token_b_vault else ctx.token_a_vault
      match swapQuote inputVault.amount redeemVault.amount pool.fee_rate amount_in with
      | .error e => ⟨pool, [], .err e⟩
      | .ok (fee, net) =>
        match (if dir then chkAdd pool.total_fees_b fee
               else chkAdd pool.total_fees_a fee) with
        | none => ⟨pool, [], .err .InvalidAmount⟩
        | some newFees =>
          let pool' := if dir then { pool with total_fees_b := newFees }
                       else { pool with total_fees_a := newFees }
          if net < min_amount_out then ⟨pool', [], .err .SlippageExceeded⟩
          else
            let inputAcct := if dir then ctx.user_token_a else ctx.user_token_b
            let redeemAcct := if dir then ctx.user_token_b else ctx.user_token_a
            if tIn = false then ⟨pool', [], .cpiFail⟩
            else if tOut = false then
              ⟨pool', [.transfer inputAcct.key inputVault.key amount_in], .cpiFail⟩
            else
              ⟨pool', [.transfer inputAcct.key inputVault.key amount_in,
                       .transfer redeemVault.key redeemAcct.key net], .ok⟩

/-- Input-side reserve read by `swap` for a resolved direction. -/
def inputReserve (ctx : SwapCtx) (dir : Bool) : Nat :=
  if dir then ctx.token_a_vault.amount else ctx.token_b_vault.amount

/-- Output-side reserve read by `swap` for a resolved direction. -/
def outputReserve (ctx : SwapCtx) (dir : Bool) : Nat :=
  if dir then ctx.token_b_vault.amount else ctx.token_a_vault.amount

/-- Gross output of the constant-product formula, over unbounded naturals. -/
def specGrossOut (ir orr amount_in : Nat) : Nat :=
  orr - ir * orr / (ir + amount_in)

/-- Fee on the gross output, over unbounded naturals. -/
def specFee (ir orr amount_in fee_rate : Nat) : Nat :=
  specGrossOut ir orr amount_in * fee_rate / 10000

/-- Net output of the spec's pricing formula, over unbounded naturals. -/
def specNetOut (ir orr amount_in fee_rate : Nat) : Nat :=
  specGrossOut ir orr amount_in - specFee ir orr amount_in fee_rate

/-! ### add_initial_liquidity (lib.rs:53-124) -/

/-- Accounts supplied to `add_initial_liquidity`. -/
structure AddInitialLiquidityCtx where
  user_token_a : TokenAccount
  user_token_b : TokenAccount
  token_a_vault : TokenAccount
  token_b_vault : TokenAccount
  user_lp_token_key : Pubkey
deriving DecidableEq, Repr

/-- `add_initial_liquidity` (lib.rs:53-124).  `tA`/`tB`/`mintOk` are the
outcomes of the two transfer calls and of the LP `mint_to` call.  The source
computes the LP amount as `(amount_a as f64).sqrt() * (amount_b as f64).sqrt()
as u64` (lib.rs:96-97); IEEE-754 double rounding is not modelled here — the
exact real value of that expression, `Nat.sqrt (amount_a * amount_b)`, stands
in for it, and no theorem in this file relies on the minted amount.  The
result of `mint_to` is DISCARDED in the source (lib.rs:118-121, no `?`), so a
failed mint does not change the handler's outcome. -/
def addInitialLiquidity (pool : SwapPool) (ctx : AddInitialLiquidityCtx)
    (amount_a amount_b : Nat) (tA tB mintOk : Bool) : Run :=
  if amount_a = 0 ∨ amount_b = 0 then ⟨pool, [], .err .InvalidAmount⟩
  else if tA = false then ⟨pool, [], .cpiFail⟩
  else
    let eA := Effect.transfer ctx.user_token_a.key ctx.token_a_vault.key amount_a
    if tB = false then ⟨pool, [eA], .cpiFail⟩
    else
      let eB := Effect.transfer ctx.user_token_b.key ctx.token_b_vault.key amount_b
      let initial_lp_tokens := Nat.sqrt (amount_a * amount_b)
      if mintOk then
        ⟨pool, [eA, eB, .mintTo ctx.user_lp_token_key initial_lp_tokens], .ok⟩
      else ⟨pool, [eA, eB], .ok⟩

/-! ### add_liquidity (lib.rs:126-242) -/

/-- Accounts supplied to `add_liquidity`. -/
structure AddLiquidityCtx where
  user_token_a : TokenAccount
  user_token_b : TokenAccount
  token_a_vault : TokenAccount
  token_b_vault : TokenAccount
  user_lp_token_key : Pubkey
  lp_supply : Nat
deriving DecidableEq, Repr

/-- The second half of `add_liquidity` (lib.rs:169-241): transfer the
accepted `(amount_a, amount_b)` into the vaults, compute
`min(amount_a*supply/reserve_a, amount_b*supply/reserve_b)` in widened
arithmetic, and mint it (this `mint_to` propagates its error, lib.rs:239). -/
def addLiquidityExec (pool : SwapPool) (ctx : AddLiquidityCtx)
    (amount_a amount_b : Nat) (tA tB mintOk : Bool) : Run :=
  let reserve_a := ctx.token_a_vault.amount
  let reserve_b := ctx.token_b_vault.amount
  let total_lp_supply := ctx.lp_supply
  if tA = false then ⟨pool, [], .cpiFail⟩
  else
    let eA := Effect.transfer ctx.user_token_a.key ctx.token_a_vault.key amount_a
    if tB = false then ⟨pool, [eA], .cpiFail⟩
    else
      let eB := Effect.transfer ctx.user_token_b.key ctx.token_b_vault.key amount_b
      match chkMul128 amount_a total_lp_supply with
      | none => ⟨pool, [eA, eB], .panicked⟩
      | some pa =>
        match chkDiv pa reserve_a with
        | none => ⟨pool, [eA, eB], .panicked⟩
        | some qa =>
          let lp_amount_a := toU64 qa
          match chkMul128 amount_b total_lp_supply with
          | none => ⟨pool, [eA, eB], .panicked⟩
          | some pb =>
            match chkDiv pb reserve_b with
            | none => ⟨pool, [eA, eB], .panicked⟩
            | some qb =>
              let lp_amount_b := toU64 qb
              let lp_to_mint := min lp_amount_a lp_amount_b
              if mintOk = false then ⟨pool, [eA, eB], .cpiFail⟩
              else
                ⟨pool, [eA, eB, .mintTo ctx.user_lp_token_key lp_to_mint], .ok⟩

/-- `add_liquidity` (lib.rs:126-242).  The ratio computations widen to u128
with `as u128`, use `checked_mul`/`checked_div` with `.unwrap()` (a `None`
panics), and narrow the quotient back with a truncating `as u64` (`toU64`).
`tA`/`tB`/`mintOk` are the outcomes of the external calls. -/
def addLiquidity (pool : SwapPool) (ctx : AddLiquidityCtx)
    (amount_a_desired amount_b_desired amount_a_min amount_b_min : Nat)
    (tA tB mintOk : Bool) : Run :=
  if pool.is_paused then ⟨pool, [], .err .PoolPaused⟩
  else if amount_a_desired = 0 ∨ amount_b_desired = 0 then
    ⟨pool, [], .err .InvalidAmount⟩
  else
    let reserve_a := ctx.token_a_vault.amount
    let reserve_b := ctx.token_b_vault.amount
    if reserve_a = 0 ∨ reserve_b = 0 then ⟨pool, [], .err .InsufficientLiquidity⟩
    else
      match chkMul128 amount_a_desired reserve_b with
      | none => ⟨pool, [], .panicked⟩
      | some p1 =>
        match chkDiv p1 reserve_a with
        | none => ⟨pool, [], .panicked⟩
        | some q1 =>
          let amount_b_optimal := toU64 q1
          if amount_b_optimal ≤ amount_b_desired then
            if amount_b_optimal < amount_b_min then ⟨pool, [], .err .SlippageExceeded⟩
            else addLiquidityExec pool ctx amount_a_desired amount_b_optimal tA tB mintOk
          else
            match chkMul128 amount_b_desired reserve_a with
            | none => ⟨pool, [], .panicked⟩
            | some p2 =>
              match chkDiv p2 reserve_b with
              | none => ⟨pool, [], .panicked⟩
              | some q2 =>
                let amount_a_optimal := toU64 q2
                if amount_a_optimal < amount_a_min then ⟨pool, [], .err .SlippageExceeded⟩
                else addLiquidityExec pool ctx amount_a_optimal amount_b_desired tA tB mintOk

/-! ### remove_liquidity (lib.rs:244-330) -/

/-- Accounts supplied to `remove_liquidity`. -/
structure RemoveLiquidityCtx where
  user_token_a : TokenAccount
  user_token_b : TokenAccount
  token_a_vault : TokenAccount
  token_b_vault : TokenAccount
  user_lp_token_key : Pubkey
  lp_supply : Nat
deriving DecidableEq, Repr

/-- `remove_liquidity` (lib.rs:244-330).  The pro-rata amounts widen to u128,
`.unwrap()` (so a zero LP supply panics on the `checked_div`), and narrow
with `as u64`.  On success the handler burns first, then transfers both
amounts out of the vaults. -/
def removeLiquidity (pool : SwapPool) (ctx : RemoveLiquidityCtx)
    (lp_amount amount_a_min amount_b_min : Nat) (burnOk tA tB : Bool) : Run :=
  if pool.is_paused then ⟨pool, [], .err .PoolPaused⟩
  else if lp_amount = 0 then ⟨pool, [], .err .InvalidAmount⟩
  else
    let reserve_a := ctx.token_a_vault.amount
    let reserve_b := ctx.token_b_vault.amount
    let total_lp_supply := ctx.lp_supply
    match chkMul128 lp_amount reserve_a with
    | none => ⟨pool, [], .panicked⟩
    | some pa =>
      match chkDiv pa total_lp_supply with
      | none => ⟨pool, [], .panicked⟩
      | some qa =>
        let amount_a := toU64 qa
        match chkMul128 lp_amount reserve_b with
        | none => ⟨pool, [], .panicked⟩
        | some pb =>
          match chkDiv pb total_lp_supply with
          | none => ⟨pool, [], .panicked⟩
          | some qb =>
            let amount_b := toU64 qb
            if amount_a < amount_a_min then ⟨pool, [], .err .SlippageExceeded⟩
            else if amount_b < amount_b_min then ⟨pool, [], .err .SlippageExceeded⟩
            else if burnOk = false then ⟨pool, [], .cpiFail⟩
            else
              let eBurn := Effect.burn ctx.user_lp_token_key lp_amount
              if tA = false then ⟨pool, [eBurn], .cpiFail⟩
              else
                let eA := Effect.transfer ctx.token_a_vault.key ctx.user_token_a.key amount_a
                if tB = false then ⟨pool, [eBurn, eA], .cpiFail⟩
                else
                  ⟨pool, [eBurn, eA,
                          .transfer ctx.token_b_vault.key ctx.user_token_b.key amount_b], .ok⟩

/-! ### collect_fees (lib.rs:416-480) -/

/-- Accounts supplied to `collect_fees`. -/
structure CollectFeesCtx where
  fee_collector : Pubkey
  token_a_vault_key : Pubkey
  token_b_vault_key : Pubkey
  fee_collector_token_a_key : Pubkey
  fee_collector_token_b_key : Pubkey
deriving DecidableEq, Repr

/-- `collect_fees` (lib.rs:416-480): admin check, both counters zeroed, then
one transfer per asset with a nonzero accumulated amount. -/
def collectFees (pool : SwapPool) (ctx : CollectFeesCtx) (tA tB : Bool) : Run :=
  if ctx.fee_collector ≠ pool.admin then ⟨pool, [], .err .Unauthorized⟩
  else
    let fee_amount_a := pool.total_fees_a
    let fee_amount_b := pool.total_fees_b
    let pool' := { pool with total_fees_a := 0, total_fees_b := 0 }
    if 0 < fee_amount_a ∧ tA = false then ⟨pool', [], .cpiFail⟩
    else
      let effA : List Effect :=
        if 0 < fee_amount_a then
          [.transfer ctx.token_a_vault_key ctx.fee_collector_token_a_key fee_amount_a]
        else []
      if 0 < fee_amount_b ∧ tB = false then ⟨pool', effA, .cpiFail⟩
      else
        let effB : List Effect :=
          if 0 < fee_amount_b then
            [.transfer ctx.token_b_vault_key ctx.fee_collector_token_b_key fee_amount_b]
          else []
        ⟨pool', effA ++ effB, .ok⟩

/-! ### Admin guard (lib.rs:482-502) -/

/-- `set_paused` (lib.rs:482-487). -/
def setPaused (pool : SwapPool) (caller : Pubkey) (paused : Bool) : Run :=
  if caller ≠ pool.admin then ⟨pool, [], .err .Unauthorized⟩
  else ⟨{ pool with is_paused := paused }, [], .ok⟩

/-- `update_fee_rate` (lib.rs:489-495). -/
def updateFeeRate (pool : SwapPool) (caller : Pubkey) (new_fee_rate : Nat) : Run :=
  if caller ≠ pool.admin then ⟨pool, [], .err .Unauthorized⟩
  else if 1000 < new_fee_rate then ⟨pool, [], .err .FeeTooHigh⟩
  else ⟨{ pool with fee_rate := new_fee_rate }, [], .ok⟩

/-- `transfer_admin` (lib.rs:497-502). -/
def transferAdmin (pool : SwapPool) (caller : Pubkey) (new_admin : Pubkey) : Run :=
  if caller ≠ pool.admin then ⟨pool, [], .err .Unauthorized⟩
  else ⟨{ pool with admin := new_admin }, [], .ok⟩

/-! ### Read-only queries (lib.rs:504-623).
They return `Option (...)`: `none` models an `Option::unwrap` panic in the
widened u128 arithmetic (unreachable for u64-ranged inputs, but modelled). -/

/-- `get_token_a_price` (lib.rs:505-519). -/
def getTokenAPrice (pool : SwapPool) (token_a_amount token_b_amount : Nat) :
    Option (Except CustomError Nat) :=
  if token_a_amount = 0 then some (.error .InsufficientLiquidity)
  else
    match chkMul128 token_b_amount 1000000 with
    | none => none
    | some m =>
      match chkDiv m token_a_amount with
      | none => none
      | some q => some (.ok (toU64 q))

/-- `get_token_b_price` (lib.rs:520-534). -/
def getTokenBPrice (pool : SwapPool) (token_a_amount token_b_amount : Nat) :
    Option (Except CustomError Nat) :=
  if token_b_amount = 0 then some (.error .InsufficientLiquidity)
  else
    match chkMul128 token_a_amount 1000000 with
    | none => none
    | some m =>
      match chkDiv m token_b_amount with
      | none => none
      | some q => some (.ok (toU64 q))

/-- `get_pool_stats` (lib.rs:537-543). -/
def getPoolStats (pool : SwapPool) (token_a_amount token_b_amount lp_supply : Nat) :
    Nat × Nat × Nat :=
  (token_a_amount, token_b_amount, lp_supply)

/-- `calculate_swap_result` (lib.rs:546-574): the same pricing block as `swap`
but with every checked-arithmetic failure mapped to `CalculationFailure`, and
no state mutation. -/
def calculateSwapResult (pool : SwapPool) (reserve_a reserve_b : Nat)
    (amount_in : Nat) (is_a_to_b : Bool) : Except CustomError Nat :=
  let source_amount := if is_a_to_b then reserve_a else reserve_b
  let destination_amount := if is_a_to_b then reserve_b else reserve_a
  match chkAdd source_amount amount_in with
  | none => .error .CalculationFailure
  | some new_source_amount =>
    match chkMul source_amount destination_amount with
    | none => .error .CalculationFailure
    | some constant_product =>
      match chkDiv constant_product new_source_amount with
      | none => .error .CalculationFailure
      | some new_destination_amount =>
        match chkSub destination_amount new_destination_amount with
        | none => .error .CalculationFailure
        | some output_amount =>
          match chkMul output_amount pool.fee_rate with
          | none => .error .CalculationFailure
          | some feeNum =>
            match chkDiv feeNum 10000 with
            | none => .error .CalculationFailure
            | some fee_amount =>
              match chkSub output_amount fee_amount with
              | none => .error .CalculationFailure
              | some final_output_amount => .ok final_output_amount

/-- `get_user_pool_share` (lib.rs:585-623). -/
def getUserPoolShare (pool : SwapPool)
    (token_a_vault_amount token_b_vault_amount lp_total_supply user_lp_balance : Nat) :
    Option (Nat × Nat × Nat) :=
  let pct :=
    if lp_total_supply = 0 then some 0
    else
      match chkMul128 user_lp_balance 1000000 with
      | none => none
      | some m =>
        match chkDiv m lp_total_supply with
        | none => none
        | some q => some (toU64 q)
  let shareA :=
    if lp_total_supply = 0 then some 0
    else
      match chkMul128 user_lp_balance token_a_vault_amount with
      | none => none
      | some m =>
        match chkDiv m lp_total_supply with
        | none => none
        | some q => some (toU64 q)
  let shareB :=
    if lp_total_supply = 0 then some 0
    else
      match chkMul128 user_lp_balance token_b_vault_amount with
      | none => none
      | some m =>
        match chkDiv m lp_total_supply with
        | none => none
        | some q => some (toU64 q)
  match pct, shareA, shareB with
  | some x, some y, some z => some (x, y, z)
  | _, _, _ => none

/-! ## Sanity checks on concrete inputs -/

example :
    (swap ⟨1, 2, 3, 4, 5, 6, 30, 255, false, 9, 0, 0⟩
       ⟨⟨11, 1, 5000⟩, ⟨12, 2, 7000⟩, ⟨13, 1, 10000⟩, ⟨14, 2, 10000⟩⟩
       1000 0 true true) =
    ⟨⟨1, 2, 3, 4, 5, 6, 30, 255, false, 9, 0, 2⟩,
     [.transfer 11 13 1000, .transfer 14 12 908], .ok⟩ := by decide

example :
    (addLiquidity ⟨1, 2, 3, 4, 5, 6, 30, 255, false, 9, 0, 0⟩
       ⟨⟨11, 1, 5000⟩, ⟨12, 2, 7000⟩, ⟨13, 1, 1000⟩, ⟨14, 2, 2000⟩, 15, 1000⟩
       100 300 0 0 true true true) =
    ⟨⟨1, 2, 3, 4, 5, 6, 30, 255, false, 9, 0, 0⟩,
     [.transfer 11 13 100, .transfer 12 14 200, .mintTo 15 100], .ok⟩ := by decide

/-! ## Helper lemmas -/

/-- The transfer/mint phase of `add_liquidity` never touches the pool and
never returns a `CustomError`: its only failure modes are an unwrap panic or
a propagated CPI failure. -/
theorem addLiquidityExec_inv (pool : SwapPool) (ctx : AddLiquidityCtx)
    (a b : Nat) (tA tB mintOk : Bool) :
    (addLiquidityExec pool ctx a b tA tB mintOk).pool = pool ∧
    ∀ e, (addLiquidityExec pool ctx a b tA tB mintOk).outcome ≠ .err e := by
  unfold addLiquidityExec
  split
  · simp
  · split
    · simp
    · rcases h1 : chkMul128 a ctx.lp_supply with _ | pa
      · simp [h1]
      · rcases h2 : chkDiv pa ctx.token_a_vault.amount with _ | qa
        · simp [h1, h2]
        · rcases h3 : chkMul128 b ctx.lp_supply with _ | pb
          · simp [h1, h2, h3]
          · rcases h4 : chkDiv pb ctx.token_b_vault.amount with _ | qb
            · simp [h1, h2, h3, h4]
            · split <;> simp [h1, h2, h3, h4]

/-- Products of u64-ranged values fit in a u128. -/
theorem mul_le_u128 {a b : Nat} (ha : a ≤ U64MAX) (hb : b ≤ U64MAX) :
    a * b ≤ U128MAX := by
  calc a * b ≤ U64MAX * U64MAX := Nat.mul_le_mul ha hb
    _ ≤ U128MAX := by norm_num [U64MAX, U128MAX]

/-- C1 counterexample: with reserves `(2^32, 2^32)`, `fee_rate = 30`,
`amount_in = 1` and `min_amount_out = 0`, the spec's net output is `1 ≥ 0`,
so the claim says the swap succeeds; but the u64 `checked_mul` of the two
reserves overflows and the swap fails with `InvalidAmount` — neither
succeeding nor failing `SlippageExceeded`. -/
theorem c1_counterexample :
    (swap ⟨1, 2, 3, 4, 5, 6, 30, 255, false, 9, 0, 0⟩
        ⟨⟨11, 1, 0⟩, ⟨12, 2, 0⟩, ⟨13, 1, 2 ^ 32⟩, ⟨14, 2, 2 ^ 32⟩⟩
        1 0 true true).outcome = .err .InvalidAmount ∧
    specNetOut (2 ^ 32) (2 ^ 32) 1 30 = 1 ∧
    (0 : Nat) ≤ specNetOut (2 ^ 32) (2 ^ 32) 1 30 := by
  refine ⟨?_, ?_, ?_⟩ <;> decide

/-- A successful checked add returns the exact sum. -/
theorem chkAdd_eq {a b c : Nat} (h : chkAdd a b = some c) : c = a + b := by
  unfold chkAdd at h
  split at h <;> simp_all

/-- A successful checked u64 mul/div/sub chain is characterized by its
unbounded-Nat value; this is the success shape of the `swap` pricing block. -/
theorem swapQuote_eq (ir orr rate aIn : Nat)
    (ha : 0 < aIn)
    (hadd : ir + aIn ≤ U64MAX)
    (hmul : ir * orr ≤ U64MAX)
    (hrate : rate ≤ 10000)
    (hfee : (orr - ir * orr / (ir + aIn)) * rate ≤ U64MAX) :
    swapQuote ir orr rate aIn =
      .ok ((orr - ir * orr / (ir + aIn)) * rate / 10000,
           (orr - ir * orr / (ir + aIn)) -
             (orr - ir * orr / (ir + aIn)) * rate / 10000) := by
  have hz : ¬ ir + aIn = 0 := by omega
  have hdivle : ir * orr / (ir + aIn) ≤ orr := by
    calc ir * orr / (ir + aIn) ≤ (ir + aIn) * orr / (ir + aIn) :=
        Nat.div_le_div_right (Nat.mul_le_mul_right orr (by omega))
      _ = orr := Nat.mul_div_cancel_left orr (by omega)
  have hfeele : (orr - ir * orr / (ir + aIn)) * rate / 10000 ≤
      orr - ir * orr / (ir + aIn) := by
    calc (orr - ir * orr / (ir + aIn)) * rate / 10000
        ≤ (orr - ir * orr / (ir + aIn)) * 10000 / 10000 :=
        Nat.div_le_div_right (Nat.mul_le_mul_left _ hrate)
      _ = orr - ir * orr / (ir + aIn) := Nat.mul_div_cancel _ (by norm_num)
  simp [swapQuote, chkAdd, chkMul, chkDiv, chkSub, hadd, hmul, hz, hdivle,
    hfee, hfeele]

/-- When the 64-bit product of the two reserves overflows, the `swap` pricing
block fails with `InvalidAmount` at the `checked_mul`. -/
theorem swapQuote_mul_overflow (ir orr rate aIn : Nat)
    (hadd : ir + aIn ≤ U64MAX)
    (hmul : U64MAX < ir * orr) :
    swapQuote ir orr rate aIn = .error .InvalidAmount := by
  have hn : ¬ ir * orr ≤ U64MAX := not_le.mpr hmul
  simp [swapQuote, chkAdd, chkMul, hadd, hn]

/-- On any `CustomError` failure, `swap` has issued no external call, every
pool field other than the two fee counters still holds its initial value,
the fee counters have not decreased, and the host persists the pre-state. -/
theorem swap_err_run (p : SwapPool) (ctx : SwapCtx) (aIn mOut : Nat)
    (tIn tOut : Bool) (e : CustomError)
    (h : (swap p ctx aIn mOut tIn tOut).outcome = .err e) :
    (swap p ctx aIn mOut tIn tOut).effects = [] ∧
    sameConfig (swap p ctx aIn mOut tIn tOut).pool p ∧
    p.total_fees_a ≤ (swap p ctx aIn mOut tIn tOut).pool.total_fees_a ∧
    p.total_fees_b ≤ (swap p ctx aIn mOut tIn tOut).pool.total_fees_b ∧
    persistedPool p (swap p ctx aIn mOut tIn tOut) = p := by
  by_cases hp : p.is_paused = true
  · have hrun : swap p ctx aIn mOut tIn tOut = ⟨p, [], .err .PoolPaused⟩ := by
      simp [swap, hp]
    rw [hrun] at h ⊢
    simp_all [persistedPool, sameConfig]
  · by_cases hz : aIn = 0
    · have hrun : swap p ctx aIn mOut tIn tOut = ⟨p, [], .err .InvalidAmount⟩ := by
        simp [swap, hp, hz]
      rw [hrun] at h ⊢
      simp_all [persistedPool, sameConfig]
    · rcases hd : swapDispatch p ctx with _ | dir
      · have hrun : swap p ctx aIn mOut tIn tOut = ⟨p, [], .err .InvalidToken⟩ := by
          simp [swap, hp, hz, hd]
        rw [hrun] at h ⊢
        simp_all [persistedPool, sameConfig]
      · cases dir with
        | true =>
          rcases hq : swapQuote ctx.token_a_vault.amount ctx.token_b_vault.amount
              p.fee_rate aIn with e' | fn
          · have hrun : swap p ctx aIn mOut tIn tOut = ⟨p, [], .err e'⟩ := by
              simp [swap, hp, hz, hd, hq]
            rw [hrun] at h ⊢
            simp_all [persistedPool, sameConfig]
          · obtain ⟨fee, net⟩ := fn
            rcases hf : chkAdd p.total_fees_b fee with _ | nf
            · have hrun : swap p ctx aIn mOut tIn tOut =
                  ⟨p, [], .err .InvalidAmount⟩ := by
                simp [swap, hp, hz, hd, hq, hf]
              rw [hrun] at h ⊢
              simp_all [persistedPool, sameConfig]
            · have hnf := chkAdd_eq hf
              by_cases hnm : net < mOut
              · have hrun : swap p ctx aIn mOut tIn tOut =
                    ⟨{ p with total_fees_b := nf }, [], .err .SlippageExceeded⟩ := by
                  simp [swap, hp, hz, hd, hq, hf, hnm]
                rw [hrun] at h ⊢
                refine ⟨rfl, ?_, ?_, ?_, ?_⟩
                · simp [sameConfig]
                · exact Nat.le_refl _
                · show p.total_fees_b ≤ nf
                  omega
                · simp [persistedPool]
              · by_cases h1 : tIn = false
                · have hrun : swap p ctx aIn mOut tIn tOut =
                      ⟨{ p with total_fees_b := nf }, [], .cpiFail⟩ := by
                    simp [swap, hp, hz, hd, hq, hf, hnm, h1]
                  rw [hrun] at h
                  simp at h
                · by_cases h2 : tOut = false
                  · have hrun : swap p ctx aIn mOut tIn tOut =
                        ⟨{ p with total_fees_b := nf },
                         [.transfer ctx.user_token_a.key ctx.token_a_vault.key aIn],
                         .cpiFail⟩ := by
                      simp [swap, hp, hz, hd, hq, hf, hnm, h1, h2]
                    rw [hrun] at h
                    simp at h
                  · have hrun : swap p ctx aIn mOut tIn tOut =
                        ⟨{ p with total_fees_b := nf },
                         [.transfer ctx.user_token_a.key ctx.token_a_vault.key aIn,
                          .transfer ctx.token_b_vault.key ctx.user_token_b.key net],
                         .ok⟩ := by
                      simp [swap, hp, hz, hd, hq, hf, hnm, h1, h2]
                    rw [hrun] at h
                    simp at h
        | false =>
          rcases hq : swapQuote ctx.token_b_vault.amount ctx.token_a_vault.amount
              p.fee_rate aIn with e' | fn
          · have hrun : swap p ctx aIn mOut tIn tOut = ⟨p, [], .err e'⟩ := by
              simp [swap, hp, hz, hd, hq]
            rw [hrun] at h ⊢
            simp_all [persistedPool, sameConfig]
          · obtain ⟨fee, net⟩ := fn
            rcases hf : chkAdd p.total_fees_a fee with _ | nf
            · have hrun : swap p ctx aIn mOut tIn tOut =
                  ⟨p, [], .err .InvalidAmount⟩ := by
                simp [swap, hp, hz, hd, hq, hf]
              rw [hrun] at h ⊢
              simp_all [persistedPool, sameConfig]
            · have hnf := chkAdd_eq hf
              by_cases hnm : net < mOut
              · have hrun : swap p ctx aIn mOut tIn tOut =
                    ⟨{ p with total_fees_a := nf }, [], .err .SlippageExceeded⟩ := by
                  simp [swap, hp, hz, hd, hq, hf, hnm]
                rw [hrun] at h ⊢
                refine ⟨rfl, ?_, ?_, ?_, ?_⟩
                · simp [sameConfig]
                · show p.total_fees_a ≤ nf
                  omega
                · exact Nat.le_refl _
                · simp [persistedPool]
              · by_cases h1 : tIn = false
                · have hrun : swap p ctx aIn mOut tIn tOut =
                      ⟨{ p with total_fees_a := nf }, [], .cpiFail⟩ := by
                    simp [swap, hp, hz, hd, hq, hf, hnm, h1]
                  rw [hrun] at h
                  simp at h
                · by_cases h2 : tOut = false
                  · have hrun : swap p ctx aIn mOut tIn tOut =
                        ⟨{ p with total_fees_a := nf },
                         [.transfer ctx.user_token_b.key ctx.token_b_vault.key aIn],
                         .cpiFail⟩ := by
                      simp [swap, hp, hz, hd, hq, hf, hnm, h1, h2]
                    rw [hrun] at h
                    simp at h
                  · have hrun : swap p ctx aIn mOut tIn tOut =
                        ⟨{ p with total_fees_a := nf },
                         [.transfer ctx.user_token_b.key ctx.token_b_vault.key aIn,
                          .transfer ctx.token_a_vault.key ctx.user_token_a.key net],
                         .ok⟩ := by
                      simp [swap, hp, hz, hd, hq, hf, hnm, h1, h2]
                    rw [hrun] at h
                    simp at h

/-- On any `CustomError` failure, `add_liquidity` has issued no external
call and left the pool untouched. -/
theorem addLiquidity_err_run (p : SwapPool) (ctx : AddLiquidityCtx)
    (aDes bDes aMin bMin : Nat) (t1 t2 t3 : Bool) (e : CustomError)
    (h : (addLiquidity p ctx aDes bDes aMin bMin t1 t2 t3).outcome = .err e) :
    (addLiquidity p ctx aDes bDes aMin bMin t1 t2 t3).effects = [] ∧
    (addLiquidity p ctx aDes bDes aMin bMin t1 t2 t3).pool = p ∧
    persistedPool p (addLiquidity p ctx aDes bDes aMin bMin t1 t2 t3) = p := by
  by_cases hp : p.is_paused = true
  · have hrun : addLiquidity p ctx aDes bDes aMin bMin t1 t2 t3 =
        ⟨p, [], .err .PoolPaused⟩ := by simp [addLiquidity, hp]
    rw [hrun] at h ⊢
    simp_all [persistedPool]
  · by_cases hz : (aDes = 0 ∨ bDes = 0)
    · have hrun : addLiquidity p ctx aDes bDes aMin bMin t1 t2 t3 =
          ⟨p, [], .err .InvalidAmount⟩ := by simp [addLiquidity, hp, hz]
      rw [hrun] at h ⊢
      simp_all [persistedPool]
    · by_cases hr : (ctx.token_a_vault.amount = 0 ∨ ctx.token_b_vault.amount = 0)
      · have hrun : addLiquidity p ctx aDes bDes aMin bMin t1 t2 t3 =
            ⟨p, [], .err .InsufficientLiquidity⟩ := by simp [addLiquidity, hp, hz, hr]
        rw [hrun] at h ⊢
        simp_all [persistedPool]
      · rcases h1 : chkMul128 aDes ctx.token_b_vault.amount with _ | p1
        · have hrun : addLiquidity p ctx aDes bDes aMin bMin t1 t2 t3 =
              ⟨p, [], .panicked⟩ := by simp [addLiquidity, hp, hz, hr, h1]
          rw [hrun] at h
          simp at h
        · rcases h2 : chkDiv p1 ctx.token_a_vault.amount with _ | q1
          · have hrun : addLiquidity p ctx aDes bDes aMin bMin t1 t2 t3 =
                ⟨p, [], .panicked⟩ := by simp [addLiquidity, hp, hz, hr, h1, h2]
            rw [hrun] at h
            simp at h
          · by_cases h5 : toU64 q1 ≤ bDes
            · by_cases h6 : toU64 q1 < bMin
              · have hrun : addLiquidity p ctx aDes bDes aMin bMin t1 t2 t3 =
                    ⟨p, [], .err .SlippageExceeded⟩ := by
                  simp [addLiquidity, hp, hz, hr, h1, h2, h5, h6]
                rw [hrun] at h ⊢
                simp_all [persistedPool]
              · have hrun : addLiquidity p ctx aDes bDes aMin bMin t1 t2 t3 =
                    addLiquidityExec p ctx aDes (toU64 q1) t1 t2 t3 := by
                  simp [addLiquidity, hp, hz, hr, h1, h2, h5, h6]
                rw [hrun] at h
                exact absurd h ((addLiquidityExec_inv p ctx aDes _ t1 t2 t3).2 e)
            · rcases h3 : chkMul128 bDes ctx.token_a_vault.amount with _ | p2
              · have hrun : addLiquidity p ctx aDes bDes aMin bMin t1 t2 t3 =
                    ⟨p, [], .panicked⟩ := by simp [addLiquidity, hp, hz, hr, h1, h2, h5, h3]
                rw [hrun] at h
                simp at h
              · rcases h4 : chkDiv p2 ctx.token_b_vault.amount with _ | q2
                · have hrun : addLiquidity p ctx aDes bDes aMin bMin t1 t2 t3 =
                      ⟨p, [], .panicked⟩ := by
                    simp [addLiquidity, hp, hz, hr, h1, h2, h5, h3, h4]
                  rw [hrun] at h
                  simp at h
                · by_cases h7 : toU64 q2 < aMin
                  · have hrun : addLiquidity p ctx aDes bDes aMin bMin t1 t2 t3 =
                        ⟨p, [], .err .SlippageExceeded⟩ := by
                      simp [addLiquidity, hp, hz, hr, h1, h2, h5, h3, h4, h7]
                    rw [hrun] at h ⊢
                    simp_all [persistedPool]
                  · have hrun : addLiquidity p ctx aDes bDes aMin bMin t1 t2 t3 =
                        addLiquidityExec p ctx (toU64 q2) bDes t1 t2 t3 := by
                      simp [addLiquidity, hp, hz, hr, h1, h2, h5, h3, h4, h7]
                    rw [hrun] at h
                    exact absurd h ((addLiquidityExec_inv p ctx _ bDes t1 t2 t3).2 e)

/-- On any `CustomError` failure, `remove_liquidity` has issued no external
call and left the pool untouched. -/
theorem removeLiquidity_err_run (p : SwapPool) (ctx : RemoveLiquidityCtx)
    (lpAmt aMin bMin : Nat) (t1 t2 t3 : Bool) (e : CustomError)
    (h : (removeLiquidity p ctx lpAmt aMin bMin t1 t2 t3).outcome = .err e) :
    (removeLiquidity p ctx lpAmt aMin bMin t1 t2 t3).effects = [] ∧
    (removeLiquidity p ctx lpAmt aMin bMin t1 t2 t3).pool = p ∧
    persistedPool p (removeLiquidity p ctx lpAmt aMin bMin t1 t2 t3) = p := by
  by_cases hp : p.is_paused = true
  · have hrun : removeLiquidity p ctx lpAmt aMin bMin t1 t2 t3 =
        ⟨p, [], .err .PoolPaused⟩ := by simp [removeLiquidity, hp]
    rw [hrun] at h ⊢
    simp_all [persistedPool]
  · by_cases hz : lpAmt = 0
    · have hrun : removeLiquidity p ctx lpAmt aMin bMin t1 t2 t3 =
          ⟨p, [], .err .InvalidAmount⟩ := by simp [removeLiquidity, hp, hz]
      rw [hrun] at h ⊢
      simp_all [persistedPool]
    · rcases h1 : chkMul128 lpAmt ctx.token_a_vault.amount with _ | pa
      · have hrun : removeLiquidity p ctx lpAmt aMin bMin t1 t2 t3 =
            ⟨p, [], .panicked⟩ := by simp [removeLiquidity, hp, hz, h1]
        rw [hrun] at h
        simp at h
      · rcases h2 : chkDiv pa ctx.lp_supply with _ | qa
        · have hrun : removeLiquidity p ctx lpAmt aMin bMin t1 t2 t3 =
              ⟨p, [], .panicked⟩ := by simp [removeLiquidity, hp, hz, h1, h2]
          rw [hrun] at h
          simp at h
        · rcases h3 : chkMul128 lpAmt ctx.token_b_vault.amount with _ | pb
          · have hrun : removeLiquidity p ctx lpAmt aMin bMin t1 t2 t3 =
                ⟨p, [], .panicked⟩ := by simp [removeLiquidity, hp, hz, h1, h2, h3]
            rw [hrun] at h
            simp at h
          · rcases h4 : chkDiv pb ctx.lp_supply with _ | qb
            · have hrun : removeLiquidity p ctx lpAmt aMin bMin t1 t2 t3 =
                  ⟨p, [], .panicked⟩ := by simp [removeLiquidity, hp, hz, h1, h2, h3, h4]
              rw [hrun] at h
              simp at h
            · by_cases h5 : toU64 qa < aMin
              · have hrun : removeLiquidity p ctx lpAmt aMin bMin t1 t2 t3 =
                    ⟨p, [], .err .SlippageExceeded⟩ := by
                  simp [removeLiquidity, hp, hz, h1, h2, h3, h4, h5]
                rw [hrun] at h ⊢
                simp_all [persistedPool]
              · by_cases h6 : toU64 qb < bMin
                · have hrun : removeLiquidity p ctx lpAmt aMin bMin t1 t2 t3 =
                      ⟨p, [], .err .SlippageExceeded⟩ := by
                    simp [removeLiquidity, hp, hz, h1, h2, h3, h4, h5, h6]
                  rw [hrun] at h ⊢
                  simp_all [persistedPool]
                · by_cases h7 : t1 = false
                  · have hrun : removeLiquidity p ctx lpAmt aMin bMin t1 t2 t3 =
                        ⟨p, [], .cpiFail⟩ := by
                      simp [removeLiquidity, hp, hz, h1, h2, h3, h4, h5, h6, h7]
                    rw [hrun] at h
                    simp at h
                  · by_cases h8 : t2 = false
                    · have hrun : removeLiquidity p ctx lpAmt aMin bMin t1 t2 t3 =
                          ⟨p, [.burn ctx.user_lp_token_key lpAmt], .cpiFail⟩ := by
                        simp [removeLiquidity, hp, hz, h1, h2, h3, h4, h5, h6, h7, h8]
                      rw [hrun] at h
                      simp at h
                    · by_cases h9 : t3 = false
                      · have hrun : removeLiquidity p ctx lpAmt aMin bMin t1 t2 t3 =
                            ⟨p, [.burn ctx.user_lp_token_key lpAmt,
                                 .transfer ctx.token_a_vault.key ctx.user_token_a.key
                                   (toU64 qa)], .cpiFail⟩ := by
                          simp [removeLiquidity, hp, hz, h1, h2, h3, h4, h5, h6, h7, h8, h9]
                        rw [hrun] at h
                        simp at h
                      · have hrun : removeLiquidity p ctx lpAmt aMin bMin t1 t2 t3 =
                            ⟨p, [.burn ctx.user_lp_token_key lpAmt,
                                 .transfer ctx.token_a_vault.key ctx.user_token_a.key
                                   (toU64 qa),
                                 .transfer ctx.token_b_vault.key ctx.user_token_b.key
                                   (toU64 qb)], .ok⟩ := by
                          simp [removeLiquidity, hp, hz, h1, h2, h3, h4, h5, h6, h7, h8, h9]
                        rw [hrun] at h
                        simp at h

/-- On any `CustomError` failure, `collect_fees` has issued no transfer and
left the pool (its counters included) untouched. -/
theorem collectFees_err_run (p : SwapPool) (ctx : CollectFeesCtx)
    (t1 t2 : Bool) (e : CustomError)
    (h : (collectFees p ctx t1 t2).outcome = .err e) :
    (collectFees p ctx t1 t2).effects = [] ∧
    (collectFees p ctx t1 t2).pool = p ∧
    persistedPool p (collectFees p ctx t1 t2) = p := by
  by_cases hc : ctx.fee_collector ≠ p.admin
  · have hrun : collectFees p ctx t1 t2 = ⟨p, [], .err .Unauthorized⟩ := by
      simp [collectFees, hc]
    rw [hrun] at h ⊢
    simp_all [persistedPool]
  · by_cases ha : 0 < p.total_fees_a ∧ t1 = false
    · have hrun : collectFees p ctx t1 t2 =
          ⟨{ p with total_fees_a := 0, total_fees_b := 0 }, [], .cpiFail⟩ := by
        simp [collectFees, hc, ha]
      rw [hrun] at h
      simp at h
    · by_cases hb : 0 < p.total_fees_b ∧ t2 = false
      · have hrun : (collectFees p ctx t1 t2).outcome = .cpiFail := by
          simp [collectFees, hc, ha, hb]
        rw [hrun] at h
        simp at h
      · have hrun : (collectFees p ctx t1 t2).outcome = .ok := by
          simp [collectFees, hc, ha, hb]
        rw [hrun] at h
        simp at h

/-- On any `CustomError` failure, `add_initial_liquidity` has issued no
external call and left the pool untouched. -/
theorem addInitialLiquidity_err_run (p : SwapPool) (ctx : AddInitialLiquidityCtx)
    (ia ib : Nat) (t1 t2 t3 : Bool) (e : CustomError)
    (h : (addInitialLiquidity p ctx ia ib t1 t2 t3).outcome = .err e) :
    (addInitialLiquidity p ctx ia ib t1 t2 t3).effects = [] ∧
    (addInitialLiquidity p ctx ia ib t1 t2 t3).pool = p ∧
    persistedPool p (addInitialLiquidity p ctx ia ib t1 t2 t3) = p := by
  by_cases hz : (ia = 0 ∨ ib = 0)
  · have hrun : addInitialLiquidity p ctx ia ib t1 t2 t3 =
        ⟨p, [], .err .InvalidAmount⟩ := by simp [addInitialLiquidity, hz]
    rw [hrun] at h ⊢
    simp_all [persistedPool]
  · by_cases h1 : t1 = false
    · have hrun : (addInitialLiquidity p ctx ia ib t1 t2 t3).outcome = .cpiFail := by
        simp [addInitialLiquidity, hz, h1]
      rw [hrun] at h
      simp at h
    · by_cases h2 : t2 = false
      · have hrun : (addInitialLiquidity p ctx ia ib t1 t2 t3).outcome = .cpiFail := by
          simp [addInitialLiquidity, hz, h1, h2]
        rw [hrun] at h
        simp at h
      · have hrun : (addInitialLiquidity p ctx ia ib t1 t2 t3).outcome = .ok := by
          cases t3 <;> simp [addInitialLiquidity, hz, h1, h2]
        rw [hrun] at h
        simp at h

/-! ## Claim theorems -/

/-- C9: with the pool paused, `add_liquidity`, `remove_liquidity` and `swap`
all fail with `PoolPaused`, touching nothing and issuing no transfer; while
`collect_fees` behaves exactly as on the unpaused pool (same outcome, same
effects, same resulting pool up to the `is_paused` flag itself), the admin
operations called by the admin still succeed (`set_paused` stores its
argument, `update_fee_rate` applies its usual fee-bound check and stores the
rate, `transfer_admin` stores the new admin), and every read-only query
returns exactly what it returns on the unpaused pool. -/
theorem c9_pause_gating (p : SwapPool)
    (actx : AddLiquidityCtx) (rctx : RemoveLiquidityCtx) (sctx : SwapCtx)
    (cctx : CollectFeesCtx)
    (aDes bDes aMin bMin lpAmt amount_in min_out new_rate : Nat)
    (new_admin : Pubkey) (pb t1 t2 t3 : Bool)
    (ra rb sup ulp amt_in_q : Nat) (dirq : Bool) :
    addLiquidity { p with is_paused := true } actx aDes bDes aMin bMin t1 t2 t3 =
      ⟨{ p with is_paused := true }, [], .err .PoolPaused⟩ ∧
    removeLiquidity { p with is_paused := true } rctx lpAmt aMin bMin t1 t2 t3 =
      ⟨{ p with is_paused := true }, [], .err .PoolPaused⟩ ∧
    swap { p with is_paused := true } sctx amount_in min_out t1 t2 =
      ⟨{ p with is_paused := true }, [], .err .PoolPaused⟩ ∧
    (collectFees { p with is_paused := true } cctx t1 t2).outcome =
      (collectFees { p with is_paused := false } cctx t1 t2).outcome ∧
    (collectFees { p with is_paused := true } cctx t1 t2).effects =
      (collectFees { p with is_paused := false } cctx t1 t2).effects ∧
    (collectFees { p with is_paused := true } cctx t1 t2).pool =
      { (collectFees { p with is_paused := false } cctx t1 t2).pool with
          is_paused := true } ∧
    setPaused { p with is_paused := true } p.admin pb =
      ⟨{ p with is_paused := pb }, [], .ok⟩ ∧
    updateFeeRate { p with is_paused := true } p.admin new_rate =
      (if 1000 < new_rate then
        ⟨{ p with is_paused := true }, [], .err .FeeTooHigh⟩
       else ⟨{ p with is_paused := true, fee_rate := new_rate }, [], .ok⟩) ∧
    transferAdmin { p with is_paused := true } p.admin new_admin =
      ⟨{ p with is_paused := true, admin := new_admin }, [], .ok⟩ ∧
    getTokenAPrice { p with is_paused := true } ra rb =
      getTokenAPrice { p with is_paused := false } ra rb ∧
    getTokenBPrice { p with is_paused := true } ra rb =
      getTokenBPrice { p with is_paused := false } ra rb ∧
    getPoolStats { p with is_paused := true } ra rb sup =
      getPoolStats { p with is_paused := false } ra rb sup ∧
    calculateSwapResult { p with is_paused := true } ra rb amt_in_q dirq =
      calculateSwapResult { p with is_paused := false } ra rb amt_in_q dirq ∧
    getUserPoolShare { p with is_paused := true } ra rb sup ulp =
      getUserPoolShare { p with is_paused := false } ra rb sup ulp := by
  refine ⟨?_, ?_, ?_, ?_, ?_, ?_, ?_, ?_, ?_, rfl, rfl, rfl, rfl, rfl⟩
  · simp [addLiquidity]
  · simp [removeLiquidity]
  · simp [swap]
  · unfold collectFees
    dsimp only
    split_ifs <;> rfl
  · unfold collectFees
    dsimp only
    split_ifs <;> rfl
  · unfold collectFees
    dsimp only
    split_ifs <;> rfl
  · simp [setPaused]
  · simp [updateFeeRate]
  · simp [transferAdmin]

/-- C4 evidence: `initialize_pool` stores every configuration field of the
claim except the token-A vault reference.  Called with `fee_rate = 30`,
`bump = 255` and distinct account keys `1..7` (vault A being key `3`), the
created `SwapPool` holds the supplied fee rate, both mint ids, the B vault,
the LP mint, `paused = false`, zero fee counters and `admin` = initializer,
but its `token_a_vault` field keeps the zero-initialized value `0`, not the
supplied key `3`: the handler never assigns `swap_pool.token_a_vault`. -/
theorem c4_initialize_pool_drops_vault_a :
    initializePool ⟨1, 2, 3, 4, 5, 6, 7⟩ 30 255 =
      .ok { token_a_mint := 1, token_b_mint := 2, token_a_vault := 0,
            token_b_vault := 4, lp_mint := 5, pool_authority := 6,
            fee_rate := 30, bump := 255, is_paused := false, admin := 7,
            total_fees_a := 0, total_fees_b := 0 } ∧
    (3 : Pubkey) ≠ 0 := by
  constructor
  · rfl
  · decide

/-- C10: if the two deposit transfers succeed but the LP `mint_to` call
fails, `add_initial_liquidity` still returns success — the source discards
the `mint_to` result — so the run ends `ok` with the two transfers issued and
no mint effect of any amount to any destination. -/
theorem c10_mint_failure_ignored (pool : SwapPool) (ctx : AddInitialLiquidityCtx)
    (amount_a amount_b : Nat) (ha : 0 < amount_a) (hb : 0 < amount_b) :
    (addInitialLiquidity pool ctx amount_a amount_b true true false).outcome = .ok ∧
    (addInitialLiquidity pool ctx amount_a amount_b true true false).effects =
      [.transfer ctx.user_token_a.key ctx.token_a_vault.key amount_a,
       .transfer ctx.user_token_b.key ctx.token_b_vault.key amount_b] ∧
    ∀ dst amt, Effect.mintTo dst amt ∉
      (addInitialLiquidity pool ctx amount_a amount_b true true false).effects := by
  have h : ¬(amount_a = 0 ∨ amount_b = 0) := by omega
  simp [addInitialLiquidity, h]

/-- C10 witness: the concrete instance `amount_a = 100`, `amount_b = 400`
with a failing mint call still returns success with only the two transfers. -/
theorem c10_witness :
    (addInitialLiquidity ⟨1, 2, 3, 4, 5, 6, 30, 255, false, 9, 0, 0⟩
        ⟨⟨11, 1, 5000⟩, ⟨12, 2, 7000⟩, ⟨13, 1, 0⟩, ⟨14, 2, 0⟩, 15⟩
        100 400 true true false).outcome = .ok ∧
    (addInitialLiquidity ⟨1, 2, 3, 4, 5, 6, 30, 255, false, 9, 0, 0⟩
        ⟨⟨11, 1, 5000⟩, ⟨12, 2, 7000⟩, ⟨13, 1, 0⟩, ⟨14, 2, 0⟩, 15⟩
        100 400 true true false).effects =
      [.transfer 11 13 100, .transfer 12 14 400] :=
  ⟨(c10_mint_failure_ignored ⟨1, 2, 3, 4, 5, 6, 30, 255, false, 9, 0, 0⟩
      ⟨⟨11, 1, 5000⟩, ⟨12, 2, 7000⟩, ⟨13, 1, 0⟩, ⟨14, 2, 0⟩, 15⟩
      100 400 (by decide) (by decide)).1,
   (c10_mint_failure_ignored ⟨1, 2, 3, 4, 5, 6, 30, 255, false, 9, 0, 0⟩
      ⟨⟨11, 1, 5000⟩, ⟨12, 2, 7000⟩, ⟨13, 1, 0⟩, ⟨14, 2, 0⟩, 15⟩
      100 400 (by decide) (by decide)).2.1⟩

/-- C1 as amended: for a swap on an unpaused pool with `amount_in > 0`, a
resolved direction, the pool's fee-rate invariant, and every checked u64
step in range (the input-reserve add, the reserve product, the fee
multiplication and the fee-counter add), the swap succeeds exactly when the
net output `(output_reserve - floor(input_reserve*output_reserve /
(input_reserve+amount_in))) - floor(gross*fee_rate/10000)` is at least
`min_amount_out`; any failure is `SlippageExceeded`; and on success the
transfer paid to the trader is exactly that net output. -/
theorem c1_swap_pricing (p : SwapPool) (ctx : SwapCtx)
    (amount_in min_amount_out : Nat) (dir : Bool)
    (hp : p.is_paused = false) (ha : 0 < amount_in)
    (hdir : swapDispatch p ctx = some dir)
    (hrate : p.fee_rate ≤ 1000)
    (hadd : inputReserve ctx dir + amount_in ≤ U64MAX)
    (hmul : inputReserve ctx dir * outputReserve ctx dir ≤ U64MAX)
    (hfee : specGrossOut (inputReserve ctx dir) (outputReserve ctx dir) amount_in *
      p.fee_rate ≤ U64MAX)
    (hctr : (if dir then p.total_fees_b else p.total_fees_a) +
      specFee (inputReserve ctx dir) (outputReserve ctx dir) amount_in p.fee_rate ≤
        U64MAX) :
    ((swap p ctx amount_in min_amount_out true true).outcome = .ok ↔
      min_amount_out ≤
        specNetOut (inputReserve ctx dir) (outputReserve ctx dir) amount_in p.fee_rate) ∧
    ((swap p ctx amount_in min_amount_out true true).outcome ≠ .ok →
      (swap p ctx amount_in min_amount_out true true).outcome =
        .err .SlippageExceeded) ∧
    (min_amount_out ≤
        specNetOut (inputReserve ctx dir) (outputReserve ctx dir) amount_in p.fee_rate →
      (swap p ctx amount_in min_amount_out true true).effects =
        [.transfer (if dir then ctx.user_token_a.key else ctx.user_token_b.key)
           (if dir then ctx.token_a_vault.key else ctx.token_b_vault.key) amount_in,
         .transfer (if dir then ctx.token_b_vault.key else ctx.token_a_vault.key)
           (if dir then ctx.user_token_b.key else ctx.user_token_a.key)
           (specNetOut (inputReserve ctx dir) (outputReserve ctx dir) amount_in
             p.fee_rate)]) := by
  have hz : ¬ amount_in = 0 := by omega
  have hq := swapQuote_eq (inputReserve ctx dir) (outputReserve ctx dir)
    p.fee_rate amount_in ha hadd hmul (by omega)
    (by simpa [specGrossOut] using hfee)
  cases dir with
  | true =>
    simp only [if_true] at hctr
    have hq' : swapQuote ctx.token_a_vault.amount ctx.token_b_vault.amount
        p.fee_rate amount_in =
        .ok (specFee (inputReserve ctx true) (outputReserve ctx true) amount_in p.fee_rate,
             specNetOut (inputReserve ctx true) (outputReserve ctx true) amount_in
               p.fee_rate) := by
      simpa [inputReserve, outputReserve, specFee, specNetOut, specGrossOut] using hq
    set F := specFee (inputReserve ctx true) (outputReserve ctx true) amount_in p.fee_rate
    set N := specNetOut (inputReserve ctx true) (outputReserve ctx true) amount_in p.fee_rate
    have hca : chkAdd p.total_fees_b F = some (p.total_fees_b + F) := by
      simp only [chkAdd, if_pos hctr]
    have hrun : swap p ctx amount_in min_amount_out true true =
        if N < min_amount_out then
          ⟨{ p with total_fees_b := p.total_fees_b + F }, [], .err .SlippageExceeded⟩
        else
          ⟨{ p with total_fees_b := p.total_fees_b + F },
           [.transfer ctx.user_token_a.key ctx.token_a_vault.key amount_in,
            .transfer ctx.token_b_vault.key ctx.user_token_b.key N], .ok⟩ := by
      simp [swap, hp, hz, hdir, hq', hca]
    rw [hrun]
    by_cases hlt : N < min_amount_out
    · refine ⟨?_, ?_, ?_⟩ <;> simp [hlt] <;> omega
    · refine ⟨?_, ?_, ?_⟩ <;> simp [hlt] <;> omega
  | false =>
    simp only [if_false, Bool.false_eq_true] at hctr
    have hq' : swapQuote ctx.token_b_vault.amount ctx.token_a_vault.amount
        p.fee_rate amount_in =
        .ok (specFee (inputReserve ctx false) (outputReserve ctx false) amount_in p.fee_rate,
             specNetOut (inputReserve ctx false) (outputReserve ctx false) amount_in
               p.fee_rate) := by
      simpa [inputReserve, outputReserve, specFee, specNetOut, specGrossOut] using hq
    set F := specFee (inputReserve ctx false) (outputReserve ctx false) amount_in p.fee_rate
    set N := specNetOut (inputReserve ctx false) (outputReserve ctx false) amount_in p.fee_rate
    have hca : chkAdd p.total_fees_a F = some (p.total_fees_a + F) := by
      simp only [chkAdd, if_pos hctr]
    have hrun : swap p ctx amount_in min_amount_out true true =
        if N < min_amount_out then
          ⟨{ p with total_fees_a := p.total_fees_a + F }, [], .err .SlippageExceeded⟩
        else
          ⟨{ p with total_fees_a := p.total_fees_a + F },
           [.transfer ctx.user_token_b.key ctx.token_b_vault.key amount_in,
            .transfer ctx.token_a_vault.key ctx.user_token_a.key N], .ok⟩ := by
      simp [swap, hp, hz, hdir, hq', hca]
    rw [hrun]
    by_cases hlt : N < min_amount_out
    · refine ⟨?_, ?_, ?_⟩ <;> simp [hlt] <;> omega
    · refine ⟨?_, ?_, ?_⟩ <;> simp [hlt] <;> omega

/-- C1 witness: the spec's own instance — reserves `(10000, 10000)`,
`fee_rate = 30`, `amount_in = 1000` — has net output 908, and a swap with
`min_amount_out = 908` succeeds. -/
theorem c1_witness :
    specNetOut 10000 10000 1000 30 = 908 ∧
    (swap ⟨1, 2, 3, 4, 5, 6, 30, 255, false, 9, 0, 0⟩
        ⟨⟨11, 1, 5000⟩, ⟨12, 2, 7000⟩, ⟨13, 1, 10000⟩, ⟨14, 2, 10000⟩⟩
        1000 908 true true).outcome = .ok :=
  ⟨by decide,
   (c1_swap_pricing ⟨1, 2, 3, 4, 5, 6, 30, 255, false, 9, 0, 0⟩
      ⟨⟨11, 1, 5000⟩, ⟨12, 2, 7000⟩, ⟨13, 1, 10000⟩, ⟨14, 2, 10000⟩⟩
      1000 908 true rfl (by decide) rfl (by decide) (by decide) (by decide)
      (by decide) (by decide)).1.mpr (by decide)⟩

/-- C2 counterexample: the spec's own swap instance (reserves
`(10000, 10000)`, `fee_rate = 30`, `amount_in = 1000`) with
`min_amount_out = 909` fails `SlippageExceeded`, but at the failure point
the handler has already credited the fee `2` to `total_fees_b` (which was
`0`): the source adds the fee to the output-side counter before the
slippage check. -/
theorem c2_counterexample :
    (swap ⟨1, 2, 3, 4, 5, 6, 30, 255, false, 9, 0, 0⟩
        ⟨⟨11, 1, 5000⟩, ⟨12, 2, 7000⟩, ⟨13, 1, 10000⟩, ⟨14, 2, 10000⟩⟩
        1000 909 true true).outcome = .err .SlippageExceeded ∧
    (swap ⟨1, 2, 3, 4, 5, 6, 30, 255, false, 9, 0, 0⟩
        ⟨⟨11, 1, 5000⟩, ⟨12, 2, 7000⟩, ⟨13, 1, 10000⟩, ⟨14, 2, 10000⟩⟩
        1000 909 true true).pool.total_fees_b = 2 ∧
    (⟨1, 2, 3, 4, 5, 6, 30, 255, false, 9, 0, 0⟩ : SwapPool).total_fees_b = 0 := by
  refine ⟨?_, ?_, ?_⟩ <;> decide

/-- C2 as amended: whenever any operation fails with a guard, checked-
arithmetic or slippage `CustomError`, no transfer/mint/burn call has been
issued and the host persists the unchanged pre-state; moreover every
operation except `swap` has not touched the in-memory pool at all, while a
failing `swap` may leave only its fee counters increased (never any other
field) — in particular a swap failing `SlippageExceeded` has already
credited the computed fee to the output-side counter, and that mutation is
discarded only by the host's rollback of the failed transaction. -/
theorem c2_atomicity_amended (p : SwapPool) (sctx : SwapCtx)
    (actx : AddLiquidityCtx) (rctx : RemoveLiquidityCtx)
    (ictx : AddInitialLiquidityCtx) (cctx : CollectFeesCtx)
    (aIn mOut aDes bDes aMin bMin lpAmt ia ib nr : Nat)
    (caller new_admin : Pubkey) (pb t1 t2 t3 : Bool) (e : CustomError) :
    ((swap p sctx aIn mOut t1 t2).outcome = .err e →
      (swap p sctx aIn mOut t1 t2).effects = [] ∧
      sameConfig (swap p sctx aIn mOut t1 t2).pool p ∧
      p.total_fees_a ≤ (swap p sctx aIn mOut t1 t2).pool.total_fees_a ∧
      p.total_fees_b ≤ (swap p sctx aIn mOut t1 t2).pool.total_fees_b ∧
      persistedPool p (swap p sctx aIn mOut t1 t2) = p) ∧
    ((addLiquidity p actx aDes bDes aMin bMin t1 t2 t3).outcome = .err e →
      (addLiquidity p actx aDes bDes aMin bMin t1 t2 t3).effects = [] ∧
      (addLiquidity p actx aDes bDes aMin bMin t1 t2 t3).pool = p ∧
      persistedPool p (addLiquidity p actx aDes bDes aMin bMin t1 t2 t3) = p) ∧
    ((removeLiquidity p rctx lpAmt aMin bMin t1 t2 t3).outcome = .err e →
      (removeLiquidity p rctx lpAmt aMin bMin t1 t2 t3).effects = [] ∧
      (removeLiquidity p rctx lpAmt aMin bMin t1 t2 t3).pool = p ∧
      persistedPool p (removeLiquidity p rctx lpAmt aMin bMin t1 t2 t3) = p) ∧
    ((addInitialLiquidity p ictx ia ib t1 t2 t3).outcome = .err e →
      (addInitialLiquidity p ictx ia ib t1 t2 t3).effects = [] ∧
      (addInitialLiquidity p ictx ia ib t1 t2 t3).pool = p ∧
      persistedPool p (addInitialLiquidity p ictx ia ib t1 t2 t3) = p) ∧
    ((collectFees p cctx t1 t2).outcome = .err e →
      (collectFees p cctx t1 t2).effects = [] ∧
      (collectFees p cctx t1 t2).pool = p ∧
      persistedPool p (collectFees p cctx t1 t2) = p) ∧
    ((setPaused p caller pb).outcome = .err e →
      (setPaused p caller pb).effects = [] ∧ (setPaused p caller pb).pool = p) ∧
    ((updateFeeRate p caller nr).outcome = .err e →
      (updateFeeRate p caller nr).effects = [] ∧
      (updateFeeRate p caller nr).pool = p) ∧
    ((transferAdmin p caller new_admin).outcome = .err e →
      (transferAdmin p caller new_admin).effects = [] ∧
      (transferAdmin p caller new_admin).pool = p) := by
  refine ⟨swap_err_run p sctx aIn mOut t1 t2 e,
    addLiquidity_err_run p actx aDes bDes aMin bMin t1 t2 t3 e,
    removeLiquidity_err_run p rctx lpAmt aMin bMin t1 t2 t3 e,
    addInitialLiquidity_err_run p ictx ia ib t1 t2 t3 e,
    collectFees_err_run p cctx t1 t2 e, ?_, ?_, ?_⟩
  · intro h
    by_cases hc : caller ≠ p.admin
    · simp [setPaused, hc]
    · simp [setPaused, hc] at h
  · intro h
    by_cases hc : caller ≠ p.admin
    · simp [updateFeeRate, hc]
    · by_cases hnr : 1000 < nr
      · simp [updateFeeRate, hc, hnr]
      · simp [updateFeeRate, hc, hnr] at h
  · intro h
    by_cases hc : caller ≠ p.admin
    · simp [transferAdmin, hc]
    · simp [transferAdmin, hc] at h

/-- C2 witness: for the concrete swap failing `SlippageExceeded`, the
amended theorem yields that no transfer was issued, all non-fee fields are
unchanged, the fee counters did not decrease, and the host persists the
pre-state. -/
theorem c2_witness :
    (swap ⟨1, 2, 3, 4, 5, 6, 30, 255, false, 9, 0, 0⟩
        ⟨⟨11, 1, 5000⟩, ⟨12, 2, 7000⟩, ⟨13, 1, 10000⟩, ⟨14, 2, 10000⟩⟩
        1000 909 true true).effects = [] ∧
    sameConfig (swap ⟨1, 2, 3, 4, 5, 6, 30, 255, false, 9, 0, 0⟩
        ⟨⟨11, 1, 5000⟩, ⟨12, 2, 7000⟩, ⟨13, 1, 10000⟩, ⟨14, 2, 10000⟩⟩
        1000 909 true true).pool ⟨1, 2, 3, 4, 5, 6, 30, 255, false, 9, 0, 0⟩ ∧
    (⟨1, 2, 3, 4, 5, 6, 30, 255, false, 9, 0, 0⟩ : SwapPool).total_fees_a ≤
      (swap ⟨1, 2, 3, 4, 5, 6, 30, 255, false, 9, 0, 0⟩
        ⟨⟨11, 1, 5000⟩, ⟨12, 2, 7000⟩, ⟨13, 1, 10000⟩, ⟨14, 2, 10000⟩⟩
        1000 909 true true).pool.total_fees_a ∧
    (⟨1, 2, 3, 4, 5, 6, 30, 255, false, 9, 0, 0⟩ : SwapPool).total_fees_b ≤
      (swap ⟨1, 2, 3, 4, 5, 6, 30, 255, false, 9, 0, 0⟩
        ⟨⟨11, 1, 5000⟩, ⟨12, 2, 7000⟩, ⟨13, 1, 10000⟩, ⟨14, 2, 10000⟩⟩
        1000 909 true true).pool.total_fees_b ∧
    persistedPool ⟨1, 2, 3, 4, 5, 6, 30, 255, false, 9, 0, 0⟩
      (swap ⟨1, 2, 3, 4, 5, 6, 30, 255, false, 9, 0, 0⟩
        ⟨⟨11, 1, 5000⟩, ⟨12, 2, 7000⟩, ⟨13, 1, 10000⟩, ⟨14, 2, 10000⟩⟩
        1000 909 true true) = ⟨1, 2, 3, 4, 5, 6, 30, 255, false, 9, 0, 0⟩ :=
  (c2_atomicity_amended ⟨1, 2, 3, 4, 5, 6, 30, 255, false, 9, 0, 0⟩
      ⟨⟨11, 1, 5000⟩, ⟨12, 2, 7000⟩, ⟨13, 1, 10000⟩, ⟨14, 2, 10000⟩⟩
      ⟨⟨11, 1, 0⟩, ⟨12, 2, 0⟩, ⟨13, 1, 1⟩, ⟨14, 2, 1⟩, 15, 1⟩
      ⟨⟨11, 1, 0⟩, ⟨12, 2, 0⟩, ⟨13, 1, 1⟩, ⟨14, 2, 1⟩, 15, 1⟩
      ⟨⟨11, 1, 0⟩, ⟨12, 2, 0⟩, ⟨13, 1, 0⟩, ⟨14, 2, 0⟩, 15⟩
      ⟨9, 13, 14, 16, 17⟩
      1000 909 1 1 0 0 1 1 1 0 9 9 true true true true
      .SlippageExceeded).1 (by decide)

/-- C3 counterexample: with reserves `(2^32, 2^32)` the product of the
reserves exceeds `u64::MAX` while the final reserve
`floor(2^32*2^32/(2^32+1)) = 2^32-1` and the gross output `1` both fit in
u64, yet the swap fails with `InvalidAmount` on that multiplication — the
intermediate product is a plain u64 `checked_mul`, not a widened one. -/
theorem c3_counterexample :
    swap ⟨1, 2, 3, 4, 5, 6, 30, 255, false, 9, 0, 0⟩
        ⟨⟨11, 1, 0⟩, ⟨12, 2, 0⟩, ⟨13, 1, 2 ^ 32⟩, ⟨14, 2, 2 ^ 32⟩⟩
        1 0 true true =
      ⟨⟨1, 2, 3, 4, 5, 6, 30, 255, false, 9, 0, 0⟩, [], .err .InvalidAmount⟩ ∧
    U64MAX < 2 ^ 32 * 2 ^ 32 ∧
    2 ^ 32 * 2 ^ 32 / (2 ^ 32 + 1) ≤ U64MAX ∧
    specGrossOut (2 ^ 32) (2 ^ 32) 1 ≤ U64MAX := by
  refine ⟨?_, ?_, ?_, ?_⟩ <;> decide

/-- C3 as amended: the pricing product `input_reserve * output_reserve` is
computed with a 64-bit `checked_mul`; for every state where this product
exceeds `u64::MAX` (and the preceding reserve-plus-amount add is in range),
the swap fails with `InvalidAmount` regardless of how small the final
reserve and output values would be, leaving the pool untouched with no
transfer issued. -/
theorem c3_swap_mul_not_widened (p : SwapPool) (ctx : SwapCtx)
    (amount_in min_amount_out : Nat) (dir : Bool) (tIn tOut : Bool)
    (hp : p.is_paused = false) (ha : 0 < amount_in)
    (hdir : swapDispatch p ctx = some dir)
    (hadd : inputReserve ctx dir + amount_in ≤ U64MAX)
    (hmul : U64MAX < inputReserve ctx dir * outputReserve ctx dir) :
    swap p ctx amount_in min_amount_out tIn tOut =
      ⟨p, [], .err .InvalidAmount⟩ := by
  have hz : ¬ amount_in = 0 := by omega
  have hq := swapQuote_mul_overflow (inputReserve ctx dir) (outputReserve ctx dir)
    p.fee_rate amount_in hadd hmul
  cases dir with
  | true =>
    have hq' : swapQuote ctx.token_a_vault.amount ctx.token_b_vault.amount
        p.fee_rate amount_in = .error .InvalidAmount := by
      simpa [inputReserve, outputReserve] using hq
    simp [swap, hp, hz, hdir, hq']
  | false =>
    have hq' : swapQuote ctx.token_b_vault.amount ctx.token_a_vault.amount
        p.fee_rate amount_in = .error .InvalidAmount := by
      simpa [inputReserve, outputReserve] using hq
    simp [swap, hp, hz, hdir, hq']

/-- C3 witness: a different overflowing state — reserves `(2^33, 2^31)`,
`amount_in = 5` — fails `InvalidAmount` by the amended theorem. -/
theorem c3_witness :
    swap ⟨1, 2, 3, 4, 5, 6, 30, 255, false, 9, 0, 0⟩
        ⟨⟨11, 1, 0⟩, ⟨12, 2, 0⟩, ⟨13, 1, 2 ^ 33⟩, ⟨14, 2, 2 ^ 31⟩⟩
        5 0 true true =
      ⟨⟨1, 2, 3, 4, 5, 6, 30, 255, false, 9, 0, 0⟩, [], .err .InvalidAmount⟩ :=
  c3_swap_mul_not_widened ⟨1, 2, 3, 4, 5, 6, 30, 255, false, 9, 0, 0⟩
    ⟨⟨11, 1, 0⟩, ⟨12, 2, 0⟩, ⟨13, 1, 2 ^ 33⟩, ⟨14, 2, 2 ^ 31⟩⟩
    5 0 true true true rfl (by decide) rfl (by decide) (by decide)

/-- C6: after the pause and amount guards, `swap` resolves the trade
direction by matching the supplied user token accounts' asset ids against
the pool's configured assets (`user_token_a` against `token_a_mint`, then
`user_token_b` against `token_b_mint`); a→b is selected exactly when the
source account `user_token_a` matches asset A, b→a exactly when that fails
and the source account `user_token_b` matches asset B, and when no supplied
account matches its configured asset the swap fails with `InvalidToken`,
leaving the pool untouched with no transfer issued. -/
theorem c6_swap_invalid_token (p : SwapPool) (ctx : SwapCtx)
    (amount_in min_amount_out : Nat) (tIn tOut : Bool)
    (hp : p.is_paused = false) (ha : 0 < amount_in)
    (hA : ctx.user_token_a.mint ≠ p.token_a_mint)
    (hB : ctx.user_token_b.mint ≠ p.token_b_mint) :
    swap p ctx amount_in min_amount_out tIn tOut = ⟨p, [], .err .InvalidToken⟩ ∧
    (∀ c : SwapCtx,
      (swapDispatch p c = some true ↔ c.user_token_a.mint = p.token_a_mint) ∧
      (swapDispatch p c = some false ↔
        (c.user_token_a.mint ≠ p.token_a_mint ∧ c.user_token_b.mint = p.token_b_mint))) := by
  constructor
  · have hz : ¬ amount_in = 0 := by omega
    simp [swap, hp, hz, swapDispatch, hA, hB]
  · intro c
    constructor
    · by_cases h : c.user_token_a.mint = p.token_a_mint
      · simp [swapDispatch, h]
      · by_cases h2 : c.user_token_b.mint = p.token_b_mint <;>
          simp [swapDispatch, h, h2]
    · by_cases h : c.user_token_a.mint = p.token_a_mint
      · simp [swapDispatch, h]
      · by_cases h2 : c.user_token_b.mint = p.token_b_mint <;>
          simp [swapDispatch, h, h2]

/-- C6 witness: a pool configured with assets 1 and 2 and user accounts
holding assets 7 and 8 fails `InvalidToken` with no state change. -/
theorem c6_witness :
    swap ⟨1, 2, 3, 4, 5, 6, 30, 255, false, 9, 0, 0⟩
        ⟨⟨11, 7, 5000⟩, ⟨12, 8, 7000⟩, ⟨13, 1, 10000⟩, ⟨14, 2, 10000⟩⟩
        1000 0 true true =
      ⟨⟨1, 2, 3, 4, 5, 6, 30, 255, false, 9, 0, 0⟩, [], .err .InvalidToken⟩ :=
  (c6_swap_invalid_token ⟨1, 2, 3, 4, 5, 6, 30, 255, false, 9, 0, 0⟩
      ⟨⟨11, 7, 5000⟩, ⟨12, 8, 7000⟩, ⟨13, 1, 10000⟩, ⟨14, 2, 10000⟩⟩
      1000 0 true true rfl (by decide) (by decide) (by decide)).1

/-- C5 counterexample: with `reserve_a = 1`, `reserve_b = 2^64-1`,
`amount_a_desired = 2`, the exact `optimal_b = 2*(2^64-1)/1 = 2^65-2`
overflows u64, so the claim requires `InvalidAmount`; instead the `as u64`
narrowing silently truncates it to `2^64-2` and the operation proceeds to
success, transferring the truncated amount. -/
theorem c5_counterexample :
    (addLiquidity ⟨1, 2, 3, 4, 5, 6, 30, 255, false, 9, 0, 0⟩
        ⟨⟨11, 1, 100⟩, ⟨12, 2, 0⟩, ⟨13, 1, 1⟩, ⟨14, 2, 2 ^ 64 - 1⟩, 15, 1⟩
        2 (2 ^ 64 - 2) 0 0 true true true).outcome = .ok ∧
    (addLiquidity ⟨1, 2, 3, 4, 5, 6, 30, 255, false, 9, 0, 0⟩
        ⟨⟨11, 1, 100⟩, ⟨12, 2, 0⟩, ⟨13, 1, 1⟩, ⟨14, 2, 2 ^ 64 - 1⟩, 15, 1⟩
        2 (2 ^ 64 - 2) 0 0 true true true).effects =
      [.transfer 11 13 2, .transfer 12 14 (2 ^ 64 - 2), .mintTo 15 0] ∧
    U64MAX < 2 * (2 ^ 64 - 1) / 1 := by
  refine ⟨?_, ?_, ?_⟩ <;> decide

/-- C5 as amended: `optimal_b` is computed in a 128-bit intermediate (whose
`checked_mul` cannot overflow for u64-ranged inputs and whose `checked_div`
is protected by the `reserve_a > 0` guard) and is then narrowed with a
silently truncating `as u64` cast (`toU64`, i.e. mod `2^64`); consequently,
after the guards pass, `add_liquidity` never fails with `InvalidAmount` —
a narrowing overflow is not detected — and when the (truncated) `optimal_b`
is accepted the operation proceeds with exactly that truncated value. -/
theorem c5_add_liquidity_narrowing (p : SwapPool) (ctx : AddLiquidityCtx)
    (a_des b_des a_min b_min : Nat) (tA tB mintOk : Bool)
    (hp : p.is_paused = false) (hads : 0 < a_des) (hbds : 0 < b_des)
    (hra : 0 < ctx.token_a_vault.amount) (hrb : 0 < ctx.token_b_vault.amount)
    (ha64 : a_des ≤ U64MAX) (hrb64 : ctx.token_b_vault.amount ≤ U64MAX) :
    (addLiquidity p ctx a_des b_des a_min b_min tA tB mintOk).outcome ≠
      .err .InvalidAmount ∧
    (toU64 (a_des * ctx.token_b_vault.amount / ctx.token_a_vault.amount) ≤ b_des →
      ¬ toU64 (a_des * ctx.token_b_vault.amount / ctx.token_a_vault.amount) < b_min →
      addLiquidity p ctx a_des b_des a_min b_min tA tB mintOk =
        addLiquidityExec p ctx a_des
          (toU64 (a_des * ctx.token_b_vault.amount / ctx.token_a_vault.amount))
          tA tB mintOk) := by
  have hz1 : ¬(a_des = 0 ∨ b_des = 0) := by omega
  have hz2 : ¬(ctx.token_a_vault.amount = 0 ∨ ctx.token_b_vault.amount = 0) := by
    omega
  have hz3 : ¬ ctx.token_a_vault.amount = 0 := by omega
  have hz4 : ¬ ctx.token_b_vault.amount = 0 := by omega
  have hm1 : chkMul128 a_des ctx.token_b_vault.amount =
      some (a_des * ctx.token_b_vault.amount) := by
    simp [chkMul128, mul_le_u128 ha64 hrb64]
  have hd1 : chkDiv (a_des * ctx.token_b_vault.amount) ctx.token_a_vault.amount =
      some (a_des * ctx.token_b_vault.amount / ctx.token_a_vault.amount) := by
    simp [chkDiv, hz3]
  constructor
  · simp only [addLiquidity, hp, Bool.false_eq_true, if_false, hz1, hz2, hm1, hd1]
    split
    · split
      · simp
      · exact (addLiquidityExec_inv p ctx a_des _ tA tB mintOk).2 _
    · rcases h2 : chkMul128 b_des ctx.token_a_vault.amount with _ | p2
      · simp [h2]
      · rcases h3 : chkDiv p2 ctx.token_b_vault.amount with _ | q2
        · simp [h2, h3]
        · simp only [h2, h3]
          split
          · simp
          · exact (addLiquidityExec_inv p ctx _ b_des tA tB mintOk).2 _
  · intro h1 h2
    simp [addLiquidity, hp, hz1, hz2, hm1, hd1, h1, h2]

/-- C5 witness: the spec's proportional-deposit instance — reserves
`(1000, 2000)`, supply 1000, desired `(100, 300)` — accepts the (here
untruncated) `optimal_b = 200` and never fails `InvalidAmount`. -/
theorem c5_witness :
    (addLiquidity ⟨1, 2, 3, 4, 5, 6, 30, 255, false, 9, 0, 0⟩
        ⟨⟨11, 1, 5000⟩, ⟨12, 2, 7000⟩, ⟨13, 1, 1000⟩, ⟨14, 2, 2000⟩, 15, 1000⟩
        100 300 0 0 true true true).outcome ≠ .err .InvalidAmount ∧
    addLiquidity ⟨1, 2, 3, 4, 5, 6, 30, 255, false, 9, 0, 0⟩
        ⟨⟨11, 1, 5000⟩, ⟨12, 2, 7000⟩, ⟨13, 1, 1000⟩, ⟨14, 2, 2000⟩, 15, 1000⟩
        100 300 0 0 true true true =
      addLiquidityExec ⟨1, 2, 3, 4, 5, 6, 30, 255, false, 9, 0, 0⟩
        ⟨⟨11, 1, 5000⟩, ⟨12, 2, 7000⟩, ⟨13, 1, 1000⟩, ⟨14, 2, 2000⟩, 15, 1000⟩
        100 (toU64 (100 * 2000 / 1000)) true true true :=
  ⟨(c5_add_liquidity_narrowing ⟨1, 2, 3, 4, 5, 6, 30, 255, false, 9, 0, 0⟩
      ⟨⟨11, 1, 5000⟩, ⟨12, 2, 7000⟩, ⟨13, 1, 1000⟩, ⟨14, 2, 2000⟩, 15, 1000⟩
      100 300 0 0 true true true rfl (by decide) (by decide) (by decide)
      (by decide) (by decide) (by decide)).1,
   (c5_add_liquidity_narrowing ⟨1, 2, 3, 4, 5, 6, 30, 255, false, 9, 0, 0⟩
      ⟨⟨11, 1, 5000⟩, ⟨12, 2, 7000⟩, ⟨13, 1, 1000⟩, ⟨14, 2, 2000⟩, 15, 1000⟩
      100 300 0 0 true true true rfl (by decide) (by decide) (by decide)
      (by decide) (by decide) (by decide)).2 (by decide) (by decide)⟩

/-- C7: redeeming the entire LP supply from an unpaused pool (with minimums
within the reserves, all values in u64 range and all CPIs succeeding) burns
the supply and pays out exactly the full reserves of both vaults:
`amount_a = reserve_a` and `amount_b = reserve_b`. -/
theorem c7_remove_all_liquidity (p : SwapPool) (ctx : RemoveLiquidityCtx)
    (lp_amount amount_a_min amount_b_min : Nat)
    (hp : p.is_paused = false)
    (hsup : 0 < ctx.lp_supply)
    (hlp : lp_amount = ctx.lp_supply)
    (hsup64 : ctx.lp_supply ≤ U64MAX)
    (hra : ctx.token_a_vault.amount ≤ U64MAX)
    (hrb : ctx.token_b_vault.amount ≤ U64MAX)
    (hamin : amount_a_min ≤ ctx.token_a_vault.amount)
    (hbmin : amount_b_min ≤ ctx.token_b_vault.amount) :
    removeLiquidity p ctx lp_amount amount_a_min amount_b_min true true true =
      ⟨p, [.burn ctx.user_lp_token_key lp_amount,
           .transfer ctx.token_a_vault.key ctx.user_token_a.key ctx.token_a_vault.amount,
           .transfer ctx.token_b_vault.key ctx.user_token_b.key ctx.token_b_vault.amount],
       .ok⟩ := by
  subst hlp
  have hz : ¬ ctx.lp_supply = 0 := by omega
  have hma : chkMul128 ctx.lp_supply ctx.token_a_vault.amount =
      some (ctx.lp_supply * ctx.token_a_vault.amount) := by
    simp [chkMul128, mul_le_u128 hsup64 hra]
  have hmb : chkMul128 ctx.lp_supply ctx.token_b_vault.amount =
      some (ctx.lp_supply * ctx.token_b_vault.amount) := by
    simp [chkMul128, mul_le_u128 hsup64 hrb]
  have hda : chkDiv (ctx.lp_supply * ctx.token_a_vault.amount) ctx.lp_supply =
      some ctx.token_a_vault.amount := by
    simp [chkDiv, hz, Nat.mul_div_cancel_left _ hsup]
  have hdb : chkDiv (ctx.lp_supply * ctx.token_b_vault.amount) ctx.lp_supply =
      some ctx.token_b_vault.amount := by
    simp [chkDiv, hz, Nat.mul_div_cancel_left _ hsup]
  have hta : toU64 ctx.token_a_vault.amount = ctx.token_a_vault.amount :=
    Nat.mod_eq_of_lt (lt_of_le_of_lt hra (by norm_num [U64MAX]))
  have htb : toU64 ctx.token_b_vault.amount = ctx.token_b_vault.amount :=
    Nat.mod_eq_of_lt (lt_of_le_of_lt hrb (by norm_num [U64MAX]))
  have hs1 : ¬ ctx.token_a_vault.amount < amount_a_min := by omega
  have hs2 : ¬ ctx.token_b_vault.amount < amount_b_min := by omega
  simp [removeLiquidity, hp, hz, hma, hmb, hda, hdb, hta, htb, hs1, hs2]

/-- C7 witness: supply 100 fully redeemed from reserves (500, 800) pays out
exactly 500 and 800. -/
theorem c7_witness :
    removeLiquidity ⟨1, 2, 3, 4, 5, 6, 30, 255, false, 9, 0, 0⟩
        ⟨⟨11, 1, 0⟩, ⟨12, 2, 0⟩, ⟨13, 1, 500⟩, ⟨14, 2, 800⟩, 15, 100⟩
        100 0 0 true true true =
      ⟨⟨1, 2, 3, 4, 5, 6, 30, 255, false, 9, 0, 0⟩,
       [.burn 15 100, .transfer 13 11 500, .transfer 14 12 800], .ok⟩ :=
  c7_remove_all_liquidity ⟨1, 2, 3, 4, 5, 6, 30, 255, false, 9, 0, 0⟩
    ⟨⟨11, 1, 0⟩, ⟨12, 2, 0⟩, ⟨13, 1, 500⟩, ⟨14, 2, 800⟩, 15, 100⟩
    100 0 0 rfl (by decide) rfl (by decide) (by decide) (by decide)
    (by decide) (by decide)

end TokenSwap
